import Mathlib

/-!
Verification of the scroll-driven counter reveal engine of this repository.

The development shallowly embeds the parts of the code the properties talk
about: the viewport probe Helpers.isInViewport (src/js/core/config.js),
the Counters module (src/js/modules/counters.js) and the counters effect of
EventManager.onWindowLoad (src/js/core/events.js).

A DOM counter element is modelled by the record of the fields the code
reads and writes: its data-count attribute (an optional string, none when
the attribute is absent), its textContent and whether its class list
contains the class named animated.  JavaScript numbers are modelled by the
rationals, and the timer-driven tween loop of Counters.animateCounter is
modelled as a fuel-indexed recursion that returns the list of integer
values rendered frame by frame.
-/

/-- Model of the JavaScript builtin parseInt applied with no radix
argument, as called at src/js/modules/counters.js line 77: leading
whitespace is skipped, an optional sign is read, and the longest leading
run of decimal digits gives the value; when that run is empty the result
is NaN, modelled as none.  (The hexadecimal 0x form accepted by parseInt
never arises for the attribute strings of this page and is not modelled.) -/
def parseIntJS (s : String) : Option Int :=
  let cs := s.data.dropWhile fun c => c == ' ' || c == '\t' || c == '\n' || c == '\r'
  match cs with
  | '-' :: rest =>
      let run := rest.takeWhile Char.isDigit
      if run.isEmpty then none else some (- digitsVal run)
  | '+' :: rest =>
      let run := rest.takeWhile Char.isDigit
      if run.isEmpty then none else some (digitsVal run)
  | other =>
      let run := other.takeWhile Char.isDigit
      if run.isEmpty then none else some (digitsVal run)
where
  /-- Value of a run of decimal digit characters. -/
  digitsVal (run : List Char) : Int :=
    run.foldl (fun acc c => acc * 10 + ((c.toNat : Int) - 48)) 0

/-- Model of parseInt(element.getAttribute(attr)): getAttribute yields null
when the attribute is absent, and parseInt(null) is NaN. -/
def parseAttr : Option String → Option Int
  | none => none
  | some s => parseIntJS s

/-- Model of text.replace with the global digit-run pattern and an empty
replacement, as at src/js/modules/counters.js line 82: removing every
maximal run of digits is removing every digit character. -/
def stripDigits (s : String) : String :=
  String.mk (s.data.filter fun c => !c.isDigit)

namespace Helpers

/-- Helpers.isInViewport from src/js/core/config.js lines 91 to 97.  The
element is represented by the top and bottom of its bounding client
rectangle and the window by its inner height; the function is a pure
boolean predicate with no side effects. -/
def isInViewport (rectTop rectBottom innerHeight offset : ℚ) : Bool :=
  decide (rectTop ≤ innerHeight * 0.85 + offset ∧ rectBottom ≥ 0 - offset)

end Helpers

/-- A counter element: the fields of a DOM node that the Counters module
reads and writes. -/
structure CounterElem where
  dataCount : Option String
  textContent : String
  animated : Bool
deriving DecidableEq, Repr

namespace Counters

/-- The recursive timer loop updateCounter inside Counters.animateCounter
(src/js/modules/counters.js lines 93 to 101), returning the list of integer
values rendered over the run: each step adds the increment to current and
renders the floor of current while current is below the target; the last
step renders the target itself.  The fuel argument bounds the recursion
depth; fuel 51 is more than the 50 steps the loop can take. -/
def updateCounter (target : Int) (increment : ℚ) : ℚ → Nat → List Int
  | _, 0 => []
  | current, fuel + 1 =>
      if current + increment < (target : ℚ) then
        Int.floor (current + increment) ::
          updateCounter target increment (current + increment) fuel
      else
        [target]

/-- The integer values rendered by the tween of Counters.animateCounter for
a given target: current starts at 0 and the increment is target / 50. -/
def animateCounterValues (target : Int) : List Int :=
  updateCounter target ((target : ℚ) / 50) 0 51

/-- The successive textContent strings rendered by the tween: each rendered
integer followed by the suffix. -/
def animateCounterTexts (target : Int) (suffix : String) : List String :=
  (animateCounterValues target).map fun v => toString v ++ suffix

/-- Counters.animateCounter (src/js/modules/counters.js lines 70 to 104)
as a state transformer on one element.  It returns the element after the
tween has run to completion together with a flag telling whether a tween
was started.  The function returns the element unchanged when the class
named animated is already present or when the data-count attribute does
not parse; otherwise it derives the suffix from the original text, adds
the animated class before the first frame, and the element ends with the
last rendered frame as its text. -/
def animateCounter (el : CounterElem) : CounterElem × Bool :=
  if el.animated then (el, false)
  else
    match parseAttr el.dataCount with
    | none => (el, false)
    | some target =>
        let suffix := stripDigits el.textContent
        let frames := animateCounterTexts target suffix
        ({ el with animated := true,
                   textContent := frames.getLastD el.textContent }, true)

end Counters

/-- Events observable during a run of the Counters module: registering an
element with the intersection observer, starting a tween on it, and
removing it from the observer. -/
inductive CEvent where
  | observe : Nat → CEvent
  | reveal : Nat → CEvent
  | unobserve : Nat → CEvent
deriving DecidableEq, Repr

/-- The static state of the Counters class: the element list found by the
query, whether the intersection observer was created, and the indices it
currently watches. -/
structure CountersState where
  counters : List CounterElem
  hasObserver : Bool
  watched : List Nat
deriving Repr

namespace Counters

/-- Apply animateCounter to the element at one index of the counter list,
reporting whether a tween started there. -/
def animateAt (els : List CounterElem) (i : Nat) : List CounterElem × Bool :=
  match els[i]? with
  | none => (els, false)
  | some el => (els.set i (animateCounter el).1, (animateCounter el).2)

/-- Observer.observe on the watch set: a no-op when the index is already
watched, otherwise the index is added. -/
def observeIdx (w : List Nat) (i : Nat) : List Nat :=
  if i ∈ w then w else w ++ [i]

/-- Observer.unobserve on the watch set: the index is removed. -/
def unobserveIdx (w : List Nat) (i : Nat) : List Nat :=
  w.filter fun j => j != i

/-- The element list after Counters.animateAll has called animateCounter on
every counter (src/js/modules/counters.js lines 109 to 113). -/
def animateAllList (els : List CounterElem) : List CounterElem :=
  els.map fun el => (animateCounter el).1

/-- The reveal events emitted while animateCounter runs over the whole
counter list: one per element on which a tween actually starts. -/
def revealEvents (els : List CounterElem) : List CEvent :=
  (els.enum.filter fun p => (animateCounter p.2).2).map fun p => CEvent.reveal p.1

/-- Counters.animateAll on the module state. -/
def animateAll (s : CountersState) : CountersState :=
  { s with counters := animateAllList s.counters }

/-- Counters.setupObserver (src/js/modules/counters.js lines 22 to 48).
When the intersection observer primitive is unsupported every counter is
animated immediately and no observer is created; otherwise the observer is
created and every counter is registered with it. -/
def setupObserver (supported : Bool) (s : CountersState) :
    CountersState × List CEvent :=
  if !supported then
    ({ s with counters := animateAllList s.counters }, revealEvents s.counters)
  else
    ({ s with hasObserver := true,
              watched := (List.range s.counters.length).foldl observeIdx s.watched },
     (List.range s.counters.length).map CEvent.observe)

/-- One step of Counters.checkCounters (src/js/modules/counters.js lines
53 to 64) on the counter at one index: when the viewport probe with offset
100 reports the element in view, animateCounter runs on it and, when the
observer exists, the element is unobserved.  The element geometry is given
by the bounding rectangle map geom and the window inner height vh. -/
def checkStep (geom : Nat → ℚ × ℚ) (vh : ℚ) (p : CountersState × List CEvent)
    (i : Nat) : CountersState × List CEvent :=
  if Helpers.isInViewport (geom i).1 (geom i).2 vh 100 then
    let r := animateAt p.1.counters i
    let s1 : CountersState := { p.1 with counters := r.1 }
    let evs := p.2 ++ (if r.2 then [CEvent.reveal i] else [])
    if s1.hasObserver then
      ({ s1 with watched := unobserveIdx s1.watched i }, evs ++ [CEvent.unobserve i])
    else (s1, evs)
  else p

/-- Counters.checkCounters: the in-view check over every counter index in
order. -/
def checkCounters (geom : Nat → ℚ × ℚ) (vh : ℚ) (s : CountersState) :
    CountersState × List CEvent :=
  (List.range s.counters.length).foldl (checkStep geom vh) (s, [])

/-- Counters.init (src/js/modules/counters.js lines 8 to 17): store the
queried counter list, then set up the observer, then check the counters
already in view.  It returns the resulting state together with the ordered
trace of observe, reveal and unobserve events. -/
def init (supported : Bool) (geom : Nat → ℚ × ℚ) (vh : ℚ)
    (counters : List CounterElem) : CountersState × List CEvent :=
  let s0 : CountersState := { counters := counters, hasObserver := false, watched := [] }
  let r1 := setupObserver supported s0
  let r2 := checkCounters geom vh r1.1
  (r2.1, r1.2 ++ r2.2)

/-- Per-element effect of Counters.reset (src/js/modules/counters.js lines
118 to 124): the animated class is removed and the text becomes the digit
zero followed by the suffix stripped from the current text. -/
def resetElem (el : CounterElem) : CounterElem :=
  { el with animated := false, textContent := "0" ++ stripDigits el.textContent }

/-- Counters.reset (src/js/modules/counters.js lines 118 to 132): every
counter is reset and, when the observer exists, every counter is observed
again. -/
def reset (s : CountersState) : CountersState :=
  let counters' := s.counters.map resetElem
  if s.hasObserver then
    { s with counters := counters',
             watched := (List.range counters'.length).foldl observeIdx s.watched }
  else { s with counters := counters' }

/-- The intersection observer callback (src/js/modules/counters.js lines
31 to 37) firing with an intersecting entry for the element at one index:
for a watched element, animateCounter runs on it and it is unobserved. -/
def observerCallback (i : Nat) (s : CountersState) : CountersState × Bool :=
  if i ∈ s.watched then
    let r := animateAt s.counters i
    ({ s with counters := r.1, watched := unobserveIdx s.watched i }, r.2)
  else (s, false)

/-- Repeated invocations of animateCounter on the same element, counting
how many tween executions start over the whole sequence of calls. -/
def animateCounterIter (el : CounterElem) : Nat → CounterElem × Nat
  | 0 => (el, 0)
  | n + 1 =>
      let r := animateCounter el
      let r' := animateCounterIter r.1 n
      (r'.1, (if r.2 then 1 else 0) + r'.2)

end Counters

namespace EventManager

/-- EventManager.onWindowLoad (src/js/core/events.js lines 121 to 131)
restricted to its effect on the counters module: it unconditionally calls
Counters.animateAll.  (Its other statement schedules a call into the
animations module, which is outside the counter state.) -/
def onWindowLoad (s : CountersState) : CountersState :=
  Counters.animateAll s

end EventManager

namespace Counters

/-- With at least one unit of fuel the tween loop renders at least one
frame: either an intermediate frame or the final one. -/
theorem updateCounter_ne_nil (t : Int) (inc c : ℚ) (fuel : Nat) (h : 0 < fuel) :
    updateCounter t inc c fuel ≠ [] := by
  cases fuel with
  | zero => exact absurd h (by simp)
  | succ n =>
      rw [updateCounter]
      split <;> simp

/-- Lower bound on the first rendered frame: starting from a current value
at most the target, every frame the loop can render next is at least the
floor of the current value (the increment is nonnegative). -/
theorem updateCounter_head_lb (t : Int) (inc : ℚ) (hinc : 0 ≤ inc) :
    ∀ (fuel : Nat) (c : ℚ), c ≤ (t : ℚ) →
      ∀ v ∈ (updateCounter t inc c fuel).head?, Int.floor c ≤ v := by
  intro fuel c hc v hv
  cases fuel with
  | zero => simp [updateCounter] at hv
  | succ n =>
      rw [updateCounter] at hv
      by_cases hlt : c + inc < (t : ℚ)
      · simp only [if_pos hlt, List.head?_cons, Option.mem_def, Option.some.injEq] at hv
        subst hv
        exact Int.floor_le_floor (by linarith)
      · simp only [if_neg hlt, List.head?_cons, Option.mem_def, Option.some.injEq] at hv
        subst hv
        calc Int.floor c ≤ Int.floor ((t : ℚ)) := Int.floor_le_floor hc
          _ = t := Int.floor_intCast t

/-- The rendered values are non-decreasing whenever the increment is
nonnegative. -/
theorem updateCounter_chain (t : Int) (inc : ℚ) (hinc : 0 ≤ inc) :
    ∀ (fuel : Nat) (c : ℚ), List.Chain' (fun a b => a ≤ b) (updateCounter t inc c fuel) := by
  intro fuel
  induction fuel with
  | zero => intro c; simp [updateCounter]
  | succ n ih =>
      intro c
      rw [updateCounter]
      by_cases hlt : c + inc < (t : ℚ)
      · rw [if_pos hlt]
        refine List.chain'_cons'.2 ⟨?_, ih (c + inc)⟩
        exact updateCounter_head_lb t inc hinc n (c + inc) (le_of_lt hlt)
      · rw [if_neg hlt]
        simp

/-- Every frame rendered before the last one is strictly below the
target. -/
theorem updateCounter_dropLast_lt (t : Int) (inc : ℚ) :
    ∀ (fuel : Nat) (c : ℚ), ∀ v ∈ (updateCounter t inc c fuel).dropLast, v < t := by
  intro fuel
  induction fuel with
  | zero => intro c v hv; simp [updateCounter] at hv
  | succ n ih =>
      intro c v hv
      rw [updateCounter] at hv
      by_cases hlt : c + inc < (t : ℚ)
      · rw [if_pos hlt] at hv
        rcases hrest : updateCounter t inc (c + inc) n with _ | ⟨a, l⟩
        · rw [hrest] at hv; simp at hv
        · rw [hrest] at hv
          simp only [List.dropLast, List.mem_cons] at hv
          rcases hv with hv | hv
          · subst hv; exact Int.floor_lt.2 hlt
          · exact ih (c + inc) v (by rw [hrest]; simpa [List.dropLast] using hv)
      · rw [if_neg hlt] at hv
        simp at hv

/-- Termination of the loop at the target: when either enough fuel is
available to cover the distance to the target or the very first step
already reaches it, the last rendered value is exactly the target. -/
theorem updateCounter_getLast (t : Int) (inc : ℚ) :
    ∀ (fuel : Nat) (c : ℚ), 0 < fuel →
      ((t : ℚ) ≤ c + fuel * inc ∨ (t : ℚ) ≤ c + inc) →
      (updateCounter t inc c fuel).getLast? = some t := by
  intro fuel
  induction fuel with
  | zero => intro c h; exact absurd h (by simp)
  | succ n ih =>
      intro c _ hreach
      rw [updateCounter]
      by_cases hlt : c + inc < (t : ℚ)
      · rw [if_pos hlt]
        have hn : 0 < n := by
          rcases Nat.eq_zero_or_pos n with h0 | h0
          · subst h0
            rcases hreach with h | h <;> push_cast at h <;> linarith
          · exact h0
        have hreach' : (t : ℚ) ≤ (c + inc) + n * inc ∨ (t : ℚ) ≤ (c + inc) + inc := by
          rcases hreach with h | h
          · left; push_cast at h ⊢; linarith
          · exact absurd h (by linarith)
        have htail := ih (c + inc) hn hreach'
        rcases hrest : updateCounter t inc (c + inc) n with _ | ⟨a, l⟩
        · exact absurd hrest (updateCounter_ne_nil t inc (c + inc) n hn)
        · rw [hrest] at htail
          rw [List.getLast?_cons_cons]
          exact htail
      · rw [if_neg hlt]
        simp

/-- The tween for any integer target ends by rendering exactly the target:
for a nonnegative target the 51 units of fuel cover the 50 steps of size
target / 50, and for a negative target the very first step already meets
the stopping condition. -/
theorem animateCounterValues_getLast (t : Int) :
    (animateCounterValues t).getLast? = some t := by
  unfold animateCounterValues
  apply updateCounter_getLast t ((t : ℚ) / 50) 51 0 (by simp)
  rcases le_or_lt 0 t with h | h
  · left
    have h' : (0 : ℚ) ≤ (t : ℚ) := by exact_mod_cast h
    push_cast
    linarith
  · right
    have h' : (t : ℚ) < 0 := by exact_mod_cast h
    linarith

/-- The final rendered text is the decimal string of the target followed by
the suffix. -/
theorem animateCounterTexts_getLast (t : Int) (suffix : String) :
    (animateCounterTexts t suffix).getLast? = some (toString t ++ suffix) := by
  unfold animateCounterTexts
  rw [List.getLast?_map, animateCounterValues_getLast]
  rfl

/-- An element already carrying the animated class is left untouched and no
tween starts. -/
theorem animateCounter_of_animated (el : CounterElem) (h : el.animated = true) :
    animateCounter el = (el, false) := by
  simp [animateCounter, h]

/-- When the data-count attribute does not parse, the element is left
untouched and no tween starts, whatever its animated state. -/
theorem animateCounter_of_none (el : CounterElem) (h : parseAttr el.dataCount = none) :
    animateCounter el = (el, false) := by
  by_cases ha : el.animated <;> simp [animateCounter, ha, h]

/-- Full description of a started tween: on an element without the animated
class and with a parsing target, animateCounter adds the animated class and
ends with the target followed by the suffix stripped from the original text
as its text. -/
theorem animateCounter_of_some (el : CounterElem) (t : Int)
    (ha : el.animated = false) (hp : parseAttr el.dataCount = some t) :
    animateCounter el =
      ({ el with animated := true,
                 textContent := toString t ++ stripDigits el.textContent }, true) := by
  simp only [animateCounter, ha, Bool.false_eq_true, if_false, hp]
  have hlast := animateCounterTexts_getLast t (stripDigits el.textContent)
  rw [List.getLastD_eq_getLast? el.textContent, hlast]
  rfl

/-- A started tween marks its element with the animated class. -/
theorem animateCounter_marks (el : CounterElem) (h : (animateCounter el).2 = true) :
    (animateCounter el).1.animated = true := by
  by_cases ha : el.animated
  · rw [animateCounter_of_animated el ha] at h
    simp at h
  · rcases hp : parseAttr el.dataCount with _ | t
    · rw [animateCounter_of_none el hp] at h
      simp at h
    · rw [animateCounter_of_some el t (by simpa using ha) hp]

end Counters

/-- C1: for every counter element whose data-count attribute parses to an
integer T with T greater than zero, the timer-based tween renders a
monotonically non-decreasing sequence of integer values, every value
rendered before the final frame is strictly below T, and the final
rendered text is exactly the decimal string of T followed by the
suffix. -/
theorem C1_tween_monotone_bounded_final (T : Int) (suffix : String) (hT : 0 < T) :
    List.Chain' (fun a b => a ≤ b) (Counters.animateCounterValues T) ∧
    (∀ v ∈ (Counters.animateCounterValues T).dropLast, v < T) ∧
    (Counters.animateCounterTexts T suffix).getLast? = some (toString T ++ suffix) := by
  refine ⟨?_, ?_, Counters.animateCounterTexts_getLast T suffix⟩
  · apply Counters.updateCounter_chain
    have h : (0 : ℚ) < (T : ℚ) := by exact_mod_cast hT
    linarith
  · exact Counters.updateCounter_dropLast_lt T ((T : ℚ) / 50) 51 0

/-- Witness for C1 at target 7 and suffix plus sign. -/
theorem C1_tween_monotone_bounded_final_witness :
    (0 : Int) < 7 ∧
    (Counters.animateCounterTexts 7 "+").getLast? = some "7+" :=
  ⟨by decide, (C1_tween_monotone_bounded_final 7 "+" (by decide)).2.2⟩

/-- C2: on an element without the animated marker and with a parsing
target, the first invocation of animateCounter starts a tween and sets the
marker, and the second invocation observes the marker and returns without
starting a second tween, leaving the element unchanged. -/
theorem C2_reveal_idempotent (el : CounterElem) (t : Int)
    (h1 : el.animated = false) (h2 : parseAttr el.dataCount = some t) :
    (Counters.animateCounter el).2 = true ∧
    (Counters.animateCounter el).1.animated = true ∧
    Counters.animateCounter (Counters.animateCounter el).1 =
      ((Counters.animateCounter el).1, false) := by
  have h := Counters.animateCounter_of_some el t h1 h2
  rw [h]
  exact ⟨rfl, rfl, Counters.animateCounter_of_animated _ rfl⟩

/-- Witness for C2 on a concrete element with target 5. -/
theorem C2_reveal_idempotent_witness :
    (Counters.animateCounter ⟨some "5", "5", false⟩).2 = true ∧
    Counters.animateCounter (Counters.animateCounter ⟨some "5", "5", false⟩).1 =
      ((Counters.animateCounter ⟨some "5", "5", false⟩).1, false) := by
  have h := C2_reveal_idempotent ⟨some "5", "5", false⟩ 5 rfl rfl
  exact ⟨h.1, h.2.2⟩

/-- C5: isInViewport returns true exactly when the rectangle top is at most
85 percent of the viewport height plus the offset and the rectangle bottom
is at least the negated offset; in particular, for a nonnegative offset an
element whose top is at most 85 percent of the viewport height and whose
bottom is nonnegative yields true, and an element entirely above the
viewport yields false.  The function is pure and total. -/
theorem C5_isInViewport_spec (rectTop rectBottom innerHeight offset : ℚ) :
    (Helpers.isInViewport rectTop rectBottom innerHeight offset = true ↔
      (rectTop ≤ innerHeight * 0.85 + offset ∧ rectBottom ≥ -offset)) ∧
    (0 ≤ offset → rectTop ≤ innerHeight * 0.85 → 0 ≤ rectBottom →
      Helpers.isInViewport rectTop rectBottom innerHeight offset = true) ∧
    (rectBottom < -offset →
      Helpers.isInViewport rectTop rectBottom innerHeight offset = false) := by
  unfold Helpers.isInViewport
  refine ⟨?_, ?_, ?_⟩
  · rw [decide_eq_true_iff]
    constructor
    · rintro ⟨ha, hb⟩
      exact ⟨ha, by linarith⟩
    · rintro ⟨ha, hb⟩
      exact ⟨ha, by linarith⟩
  · intro h0 ht hb
    rw [decide_eq_true_iff]
    exact ⟨by linarith, by linarith⟩
  · intro h
    rw [decide_eq_false_iff_not]
    rintro ⟨-, hb⟩
    linarith

/-- Witness for C5: a rectangle near the top of a 100 unit viewport is in
view with offset 0, and a rectangle entirely above the viewport is not in
view with offset 4. -/
theorem C5_isInViewport_spec_witness :
    Helpers.isInViewport 0 10 100 0 = true ∧
    Helpers.isInViewport 0 (-5) 100 4 = false :=
  ⟨(C5_isInViewport_spec 0 10 100 0).2.1 (by norm_num) (by norm_num) (by norm_num),
   (C5_isInViewport_spec 0 (-5) 100 4).2.2 (by norm_num)⟩

/-- C6: when the data-count attribute does not parse to an integer the
tween is skipped entirely: the element, its text included, is returned
untouched and no tween starts. -/
theorem C6_invalid_target_noop (el : CounterElem)
    (h : parseAttr el.dataCount = none) :
    Counters.animateCounter el = (el, false) :=
  Counters.animateCounter_of_none el h

/-- Witness for C6 on an element whose attribute string is not numeric:
the text stays exactly as it was. -/
theorem C6_invalid_target_noop_witness :
    parseAttr (some "abc") = none ∧
    Counters.animateCounter ⟨some "abc", "abc", false⟩ =
      (⟨some "abc", "abc", false⟩, false) :=
  ⟨rfl, C6_invalid_target_noop ⟨some "abc", "abc", false⟩ rfl⟩

/-- C8: the suffix is derived once per tween by stripping all digit runs
from the original text; every rendered frame is some integer followed by
that unchanged suffix, and the element ends with the decimal string of the
target followed by that suffix. -/
theorem C8_suffix_preserved (el : CounterElem) (t : Int)
    (h1 : el.animated = false) (h2 : parseAttr el.dataCount = some t) :
    (∀ s ∈ Counters.animateCounterTexts t (stripDigits el.textContent),
        ∃ v : Int, s = toString v ++ stripDigits el.textContent) ∧
    (Counters.animateCounter el).1.textContent =
      toString t ++ stripDigits el.textContent := by
  constructor
  · intro s hs
    rcases List.mem_map.1 hs with ⟨v, _, rfl⟩
    exact ⟨v, rfl⟩
  · rw [Counters.animateCounter_of_some el t h1 h2]

/-- Witness for C8: the element with attribute 1500 and original text 1500
followed by a plus sign ends the tween with exactly that text. -/
theorem C8_suffix_preserved_witness :
    parseAttr (some "1500") = some 1500 ∧
    (Counters.animateCounter ⟨some "1500", "1500+", false⟩).1.textContent = "1500+" := by
  refine ⟨rfl, ?_⟩
  have h := (C8_suffix_preserved ⟨some "1500", "1500+", false⟩ 1500 rfl rfl).2
  exact h.trans rfl

/-- C3: when the intersection observer primitive is unavailable,
setupObserver immediately animates every registered counter with no
viewport check: the resulting counter list is animateCounter applied to
every element, and every element that is not yet animated and has a
parsing target starts its tween and ends at exactly its target value. -/
theorem C3_fallback_animates_all (s : CountersState) :
    ((Counters.setupObserver false s).1).counters =
      s.counters.map (fun el => (Counters.animateCounter el).1) ∧
    ∀ el ∈ s.counters, ∀ t : Int, el.animated = false →
      parseAttr el.dataCount = some t →
      (Counters.animateCounter el).2 = true ∧
      (Counters.animateCounter el).1.textContent =
        toString t ++ stripDigits el.textContent := by
  refine ⟨rfl, ?_⟩
  intro el _ t h1 h2
  rw [Counters.animateCounter_of_some el t h1 h2]
  exact ⟨rfl, rfl⟩

/-- Witness for C3 on a one-element registered list. -/
theorem C3_fallback_animates_all_witness :
    (Counters.animateCounter ⟨some "5", "5", false⟩).2 = true ∧
    (Counters.animateCounter ⟨some "5", "5", false⟩).1.textContent = "5" := by
  have h := (C3_fallback_animates_all ⟨[⟨some "5", "5", false⟩], false, []⟩).2
      ⟨some "5", "5", false⟩ (by simp) 5 rfl rfl
  exact ⟨h.1, h.2.trans rfl⟩

/-- C10: the window load handler unconditionally runs Counters.animateAll,
so after it runs every discovered counter with a parsing target carries the
animated marker; a counter animated earlier is left unchanged (at most one
animation) and a not yet animated one ends at exactly its target value,
with no viewport condition anywhere on this path. -/
theorem C10_window_load_animates (s : CountersState) :
    (EventManager.onWindowLoad s).counters =
      s.counters.map (fun el => (Counters.animateCounter el).1) ∧
    ∀ el ∈ s.counters, ∀ t : Int, parseAttr el.dataCount = some t →
      (Counters.animateCounter el).1.animated = true ∧
      (el.animated = true → (Counters.animateCounter el).1 = el) ∧
      (el.animated = false →
        (Counters.animateCounter el).1.textContent =
          toString t ++ stripDigits el.textContent) := by
  refine ⟨rfl, ?_⟩
  intro el _ t hp
  refine ⟨?_, ?_, ?_⟩
  · by_cases ha : el.animated
    · rw [Counters.animateCounter_of_animated el ha]
      exact ha
    · rw [Counters.animateCounter_of_some el t (by simpa using ha) hp]
  · intro ha
    rw [Counters.animateCounter_of_animated el ha]
  · intro ha
    rw [Counters.animateCounter_of_some el t ha hp]

/-- Witness for C10 on a one-element state. -/
theorem C10_window_load_animates_witness :
    (Counters.animateCounter ⟨some "12", "12", false⟩).1.animated = true ∧
    (Counters.animateCounter ⟨some "12", "12", false⟩).1.textContent = "12" := by
  have h := (C10_window_load_animates ⟨[⟨some "12", "12", false⟩], true, [0]⟩).2
      ⟨some "12", "12", false⟩ (by simp) 12 rfl
  exact ⟨h.1, (h.2.2 rfl).trans rfl⟩

namespace Counters

/-- Folding Observer.observe over a list of indices keeps every index that
was already watched and adds every index of the list. -/
theorem mem_foldl_observeIdx (l : List Nat) (w : List Nat) (j : Nat)
    (h : j ∈ w ∨ j ∈ l) : j ∈ l.foldl observeIdx w := by
  induction l generalizing w with
  | nil => simpa using h.resolve_right (by simp)
  | cons a l ih =>
      simp only [List.foldl_cons]
      apply ih
      rcases h with hw | hl
      · left
        unfold observeIdx
        split <;> simp [hw]
      · rcases List.mem_cons.1 hl with rfl | hl
        · left
          unfold observeIdx
          split
          · assumption
          · simp
        · right
          exact hl

end Counters

/-- C4: after Counters.reset every counter loses the animated marker and
displays the digit zero followed by its suffix, every counter index is
watched by the observer again, and a reset counter with a parsing target is
re-eligible: animateCounter starts a tween on it exactly as on a first
reveal. -/
theorem C4_reset_restores (s : CountersState) (hobs : s.hasObserver = true)
    (i : Nat) (el : CounterElem) (hget : s.counters[i]? = some el) :
    (Counters.reset s).counters[i]? =
      some { el with animated := false,
                     textContent := "0" ++ stripDigits el.textContent } ∧
    i ∈ (Counters.reset s).watched ∧
    (∀ t : Int, parseAttr el.dataCount = some t →
      (Counters.animateCounter (Counters.resetElem el)).2 = true) := by
  have hlen : i < s.counters.length := by
    rcases List.getElem?_eq_some.1 hget with ⟨h, _⟩
    exact h
  unfold Counters.reset
  rw [if_pos hobs]
  refine ⟨?_, ?_, ?_⟩
  · rw [List.getElem?_map, hget]
    rfl
  · apply Counters.mem_foldl_observeIdx
    right
    simp [hlen]
  · intro t ht
    rw [Counters.animateCounter_of_some (Counters.resetElem el) t rfl ht]

/-- Witness for C4 on an already animated one-element state. -/
theorem C4_reset_restores_witness :
    (0 : Nat) ∈ (Counters.reset ⟨[⟨some "9", "9+", true⟩], true, []⟩).watched ∧
    (Counters.animateCounter (Counters.resetElem ⟨some "9", "9+", true⟩)).2 = true := by
  have h := C4_reset_restores ⟨[⟨some "9", "9+", true⟩], true, []⟩ rfl 0
      ⟨some "9", "9+", true⟩ rfl
  exact ⟨h.2.1, h.2.2 9 rfl⟩

namespace Counters

/-- Repeating animateCounter on an element that already carries the
animated marker starts no tween at all. -/
theorem animateCounterIter_of_animated (el : CounterElem)
    (h : el.animated = true) (n : Nat) :
    (animateCounterIter el n).2 = 0 := by
  induction n with
  | zero => rfl
  | succ m ih =>
      simp only [animateCounterIter, animateCounter_of_animated el h]
      simpa using ih

end Counters

/-- C9: the eager polling path and the observer path are mutually exclusive
for one element: over any number of reveal invocations, from either path
and in any interleaving, at most one tween executes; the observer callback
never starts a tween on an element already revealed; and in fallback mode
setupObserver creates no observer while in supported mode it starts no
tween. -/
theorem C9_paths_exclusive :
    (∀ (el : CounterElem) (n : Nat), (Counters.animateCounterIter el n).2 ≤ 1) ∧
    (∀ (s : CountersState) (i : Nat) (el : CounterElem),
        s.counters[i]? = some el → el.animated = true →
        (Counters.observerCallback i s).2 = false) ∧
    (∀ s : CountersState,
        ((Counters.setupObserver false s).1).hasObserver = s.hasObserver ∧
        ((Counters.setupObserver true s).1).counters = s.counters) := by
  refine ⟨?_, ?_, fun s => ⟨rfl, rfl⟩⟩
  · intro el n
    induction n generalizing el with
    | zero => simp [Counters.animateCounterIter]
    | succ m ih =>
        cases hs : (Counters.animateCounter el).2 with
        | false =>
            simp only [Counters.animateCounterIter, hs, if_neg Bool.false_ne_true]
            simpa using ih (Counters.animateCounter el).1
        | true =>
            have h1 : (Counters.animateCounter el).1.animated = true :=
              Counters.animateCounter_marks el hs
            simp only [Counters.animateCounterIter, hs, if_pos rfl]
            rw [Counters.animateCounterIter_of_animated _ h1 m]
            simp
  · intro s i el hget ha
    unfold Counters.observerCallback
    split
    · unfold Counters.animateAt
      rw [hget]
      simp [Counters.animateCounter_of_animated el ha]
    · rfl

/-- Witness for C9: three invocations on a fresh element start at most one
tween, and the observer callback on an already animated watched element
starts none. -/
theorem C9_paths_exclusive_witness :
    (Counters.animateCounterIter ⟨some "8", "8", false⟩ 3).2 ≤ 1 ∧
    (Counters.observerCallback 0 ⟨[⟨some "8", "8", true⟩], true, [0]⟩).2 = false :=
  ⟨C9_paths_exclusive.1 ⟨some "8", "8", false⟩ 3,
   C9_paths_exclusive.2.1 ⟨[⟨some "8", "8", true⟩], true, [0]⟩ 0
     ⟨some "8", "8", true⟩ rfl rfl⟩

namespace Counters

/-- One checkCounters step leaves the hasObserver flag unchanged. -/
theorem checkStep_hasObserver (geom : Nat → ℚ × ℚ) (vh : ℚ)
    (p : CountersState × List CEvent) (i : Nat) :
    (checkStep geom vh p i).1.hasObserver = p.1.hasObserver := by
  simp only [checkStep]
  split
  · split <;> rfl
  · rfl

/-- One checkCounters step preserves the invariant that every element with
an emitted reveal event is no longer watched: the step that reveals an
element also unobserves it, and the watch set otherwise only shrinks. -/
theorem checkStep_inv (geom : Nat → ℚ × ℚ) (vh : ℚ)
    (p : CountersState × List CEvent) (i : Nat)
    (hobs : p.1.hasObserver = true)
    (hinv : ∀ j, CEvent.reveal j ∈ p.2 → j ∉ p.1.watched) :
    ∀ j, CEvent.reveal j ∈ (checkStep geom vh p i).2 →
      j ∉ (checkStep geom vh p i).1.watched := by
  intro j hj
  simp only [checkStep] at hj ⊢
  by_cases hv : Helpers.isInViewport (geom i).1 (geom i).2 vh 100 = true
  · rw [if_pos hv] at hj ⊢
    rw [if_pos hobs] at hj ⊢
    simp only [unobserveIdx, List.mem_filter]
    rintro ⟨hmem, hne⟩
    rcases List.mem_append.1 hj with h | h
    · rcases List.mem_append.1 h with h | h
      · exact hinv j h hmem
      · have hji : j = i := by
          split at h <;> simp_all
        simp [hji] at hne
    · simp at h
  · rw [if_neg hv] at hj ⊢
    exact hinv j hj

/-- The reveal-unwatched invariant is preserved across the whole
checkCounters fold. -/
theorem foldl_checkStep_inv (geom : Nat → ℚ × ℚ) (vh : ℚ)
    (l : List Nat) (p : CountersState × List CEvent)
    (hobs : p.1.hasObserver = true)
    (hinv : ∀ j, CEvent.reveal j ∈ p.2 → j ∉ p.1.watched) :
    ∀ j, CEvent.reveal j ∈ (l.foldl (checkStep geom vh) p).2 →
      j ∉ (l.foldl (checkStep geom vh) p).1.watched := by
  induction l generalizing p with
  | nil => exact hinv
  | cons a l ih =>
      simp only [List.foldl_cons]
      exact ih _ (by rw [checkStep_hasObserver]; exact hobs)
        (checkStep_inv geom vh p a hobs hinv)

/-- checkCounters steps emit no observe events. -/
theorem checkStep_no_observe (geom : Nat → ℚ × ℚ) (vh : ℚ)
    (p : CountersState × List CEvent) (i : Nat) (j : Nat)
    (hj : CEvent.observe j ∈ (checkStep geom vh p i).2) : CEvent.observe j ∈ p.2 := by
  simp only [checkStep] at hj
  split at hj
  · split at hj
    · rcases List.mem_append.1 hj with h | h
      · rcases List.mem_append.1 h with h | h
        · exact h
        · split at h <;> simp_all
      · simp at h
    · rcases List.mem_append.1 hj with h | h
      · exact h
      · split at h <;> simp_all
  · exact hj

/-- The whole checkCounters fold emits no observe events. -/
theorem foldl_checkStep_no_observe (geom : Nat → ℚ × ℚ) (vh : ℚ)
    (l : List Nat) (p : CountersState × List CEvent) (j : Nat)
    (hj : CEvent.observe j ∈ (l.foldl (checkStep geom vh) p).2) :
    CEvent.observe j ∈ p.2 := by
  induction l generalizing p with
  | nil => exact hj
  | cons a l ih =>
      simp only [List.foldl_cons] at hj
      exact checkStep_no_observe geom vh p a j (ih _ hj)

/-- Explicit form of one checkCounters step on an in-view element when the
observer exists. -/
theorem checkStep_pos (geom : Nat → ℚ × ℚ) (vh : ℚ)
    (p : CountersState × List CEvent) (i : Nat)
    (hv : Helpers.isInViewport (geom i).1 (geom i).2 vh 100 = true)
    (hobs : p.1.hasObserver = true) :
    checkStep geom vh p i =
      ({ counters := (animateAt p.1.counters i).1,
         hasObserver := p.1.hasObserver,
         watched := unobserveIdx p.1.watched i },
       (p.2 ++ (if (animateAt p.1.counters i).2 then [CEvent.reveal i] else [])) ++
         [CEvent.unobserve i]) := by
  simp only [checkStep]
  rw [if_pos hv, if_pos hobs]

end Counters

/-- The full event trace of Counters.init on one counter with target 5
that is already in view of a 100 unit viewport, with the observer
primitive supported: the element is first registered with the observer,
then revealed by the eager check, then unregistered. -/
theorem initExampleTrace :
    (Counters.init true (fun _ => ((0 : ℚ), (10 : ℚ))) 100 [⟨some "5", "5", false⟩]).2 =
      [CEvent.observe 0, CEvent.reveal 0, CEvent.unobserve 0] := by
  have hview : Helpers.isInViewport 0 10 100 100 = true := by
    unfold Helpers.isInViewport
    rw [decide_eq_true_iff]
    constructor <;> norm_num
  have hr : List.range 1 = [0] := rfl
  have hstart2 : (Counters.animateAt [⟨some "5", "5", false⟩] 0).2 = true := rfl
  simp only [Counters.init, Counters.setupObserver, Counters.checkCounters,
    Bool.not_true, Bool.false_eq_true, if_false, Counters.observeIdx,
    List.not_mem_nil, List.nil_append, List.length_singleton, hr,
    List.foldl_cons, List.foldl_nil, List.map_cons, List.map_nil]
  rw [Counters.checkStep_pos _ _ _ _ hview rfl, hstart2]
  simp

/-- C7, amended: during initialization all counter elements are first
registered with the observer by setupObserver, and only then does the
synchronous reveal-on-init check run; each synchronously revealed element
is unregistered by that same check, so after init no element is both
revealed and still watched. -/
theorem C7_register_before_reveal (geom : Nat → ℚ × ℚ) (vh : ℚ)
    (counters : List CounterElem) :
    (∃ tail, (Counters.init true geom vh counters).2 =
        (List.range counters.length).map CEvent.observe ++ tail ∧
        ∀ j, CEvent.observe j ∉ tail) ∧
    ∀ i, CEvent.reveal i ∈ (Counters.init true geom vh counters).2 →
      i ∉ (Counters.init true geom vh counters).1.watched := by
  have hinit : Counters.init true geom vh counters =
      (((List.range counters.length).foldl (Counters.checkStep geom vh)
          ({ counters := counters, hasObserver := true,
             watched := (List.range counters.length).foldl Counters.observeIdx [] }, [])).1,
       (List.range counters.length).map CEvent.observe ++
        ((List.range counters.length).foldl (Counters.checkStep geom vh)
          ({ counters := counters, hasObserver := true,
             watched := (List.range counters.length).foldl Counters.observeIdx [] }, [])).2) := rfl
  rw [hinit]
  constructor
  · refine ⟨_, rfl, ?_⟩
    intro j hj
    have := Counters.foldl_checkStep_no_observe geom vh _ _ j hj
    simp at this
  · intro i hi
    rcases List.mem_append.1 hi with h | h
    · rcases List.mem_map.1 h with ⟨a, _, ha⟩
      exact absurd ha (by simp)
    · exact Counters.foldl_checkStep_inv geom vh _ _ rfl (by simp) i h

/-- C7 counterexample to the claim as stated: on a counter already in view
at initialization, the init trace is observe, then reveal, then unobserve,
so the element is registered with the observer before the synchronous
reveal check runs on it, and it is both synchronously revealed and
registered during the same initialization. -/
theorem C7_counterexample :
    (Counters.init true (fun _ => ((0 : ℚ), (10 : ℚ))) 100 [⟨some "5", "5", false⟩]).2 =
      [CEvent.observe 0, CEvent.reveal 0, CEvent.unobserve 0] ∧
    CEvent.observe 0 ∈ (Counters.init true (fun _ => ((0 : ℚ), (10 : ℚ))) 100
        [⟨some "5", "5", false⟩]).2 ∧
    CEvent.reveal 0 ∈ (Counters.init true (fun _ => ((0 : ℚ), (10 : ℚ))) 100
        [⟨some "5", "5", false⟩]).2 := by
  refine ⟨initExampleTrace, ?_, ?_⟩ <;> rw [initExampleTrace] <;> simp

/-- Witness for the amended C7 on the concrete in-view one-counter state:
the revealed element ends unwatched. -/
theorem C7_register_before_reveal_witness :
    (0 : Nat) ∉ (Counters.init true (fun _ => ((0 : ℚ), (10 : ℚ))) 100
        [⟨some "5", "5", false⟩]).1.watched := by
  apply (C7_register_before_reveal (fun _ => ((0 : ℚ), (10 : ℚ))) 100
      [⟨some "5", "5", false⟩]).2 0
  rw [initExampleTrace]
  simp
